import Mathlib

/-!
Shallow embedding of `src/av_encode_video1.cpp`.

The program is a single `main` that parses three CLI arguments, opens an
input container, selects the first video stream, configures and opens an
encoder at `bitrate * 1000`, allocates an output container, runs a
read/send/receive/rescale/write loop, a flush-drain loop, writes the
trailer, frees resources and exits.

The embedding models `main` as `runMain : List String → World → RunResult`.
`World` is the oracle describing the behavior of the external FFmpeg
collaborators (success/failure of each library call, the input's streams,
the demuxed packets, and the encoder's internal buffering). `RunResult`
records the exit outcome and the ordered trace of observable events
(library calls, diagnostics, writes, frees), which is what the claims
quantify over.
-/

/-- Codec type of an elementary stream (`AVMEDIA_TYPE_*`). -/
inductive CodecType
  | video
  | audio
  | other
deriving DecidableEq

/-- A rational time base (`AVRational`). -/
structure TimeBase where
  num : Int
  den : Int
deriving DecidableEq

/-- Metadata of one input stream: `AVStream` together with its `codecpar`. -/
structure StreamInfo where
  codec_type : CodecType
  codec_id : Nat
  width : Int
  height : Int
  bit_rate : Int
  time_base : TimeBase
deriving DecidableEq

/-- A compressed packet (`AVPacket`): stream index, timestamps, and an
abstract payload tag identifying the packet. -/
structure Packet where
  stream_index : Int
  pts : Int
  dts : Int
  duration : Int
  tag : Nat
deriving DecidableEq

/-- A raw frame. `allocated` is a blank frame fresh out of `av_frame_alloc`;
`decoded` marks a frame produced by a decoder (the source never produces
one: `avcodec_send_packet` / `avcodec_receive_frame` are never called). -/
inductive Frame
  | allocated (id : Nat)
  | decoded (id : Nat)
deriving DecidableEq

/-- Whether a frame was produced by the decoder. -/
def Frame.fromDecoder : Frame → Bool
  | .allocated _ => false
  | .decoded _ => true

/-- The slice of `AVCodecContext` the source reads or writes. -/
structure AVCodecContext where
  width : Int
  height : Int
  bit_rate : Int
deriving DecidableEq

/-- Error thrown by `std::stoi`. -/
inductive StoiError
  | invalid_argument
  | out_of_range
deriving DecidableEq

/-- Characters skipped by `strtol` before the number. -/
def isSpaceChar (c : Char) : Bool :=
  c = ' ' || c = '\t' || c = '\n' || c = '\r' || c = '\x0B' || c = '\x0C'

/-- Accumulate a decimal digit run into a natural number. -/
def digitsToNat : List Char → Nat → Nat
  | [], acc => acc
  | c :: rest, acc => digitsToNat rest (acc * 10 + (c.toNat - 48))

/-- Largest value of a 32-bit signed `int`. -/
def INT_MAX : Int := 2 ^ 31 - 1

/-- Smallest value of a 32-bit signed `int`. -/
def INT_MIN : Int := -(2 ^ 31)

/-- Model of `std::stoi` (base 10): skip leading whitespace, read an
optional sign and a nonempty digit run (trailing garbage is ignored);
throw `invalid_argument` when no digits are found and `out_of_range`
when the value does not fit in `int`. -/
def stoi (s : String) : Except StoiError Int :=
  let cs := s.data.dropWhile isSpaceChar
  let signed : Int × List Char :=
    match cs with
    | '-' :: rest => (-1, rest)
    | '+' :: rest => (1, rest)
    | _ => (1, cs)
  let ds := signed.2.takeWhile Char.isDigit
  if ds.isEmpty then .error .invalid_argument
  else
    let v : Int := signed.1 * (digitsToNat ds 0 : Int)
    if v < INT_MIN || INT_MAX < v then .error .out_of_range else .ok v

/-- Reduce an integer to 32-bit two's-complement range, the effect of
storing `bitrate * 1000` computed in `int` arithmetic. -/
def wrap32 (n : Int) : Int := (n + 2 ^ 31) % 2 ^ 32 - 2 ^ 31

/-- State of the encoder session (`avcodec_send_frame` /
`avcodec_receive_packet`). `sends` scripts the outcome of each successive
send: its return code and the packets that become ready for receiving.
`ready` are packets `avcodec_receive_packet` will yield now; `pending`
are packets buffered internally that are released only once end-of-stream
is signalled (a send with a null frame); `gotEOS` records that signal. -/
structure EncSt where
  sends : List (Int × List Packet)
  ready : List Packet
  pending : List Packet
  gotEOS : Bool
deriving DecidableEq

/-- Model of `avcodec_send_frame`. `none` is the null frame signalling
end-of-stream: it releases the internally buffered packets. A non-null
send consumes the next scripted outcome. -/
def avcodec_send_frame (s : EncSt) (f : Option Frame) : Int × EncSt :=
  match f with
  | none => (0, { s with gotEOS := true, ready := s.ready ++ s.pending, pending := [] })
  | some _ =>
    match s.sends with
    | [] => (0, { s with sends := [] })
    | (r, ps) :: rest =>
      if r < 0 then (r, { s with sends := rest })
      else (r, { s with sends := rest, ready := s.ready ++ ps })

/-- Model of `avcodec_receive_packet`: yields the next ready packet
(return code 0) or reports no output (nonzero: `EAGAIN`/`EOF`). -/
def avcodec_receive_packet (s : EncSt) : Option Packet × EncSt :=
  match s.ready with
  | [] => (none, s)
  | p :: rest => (some p, { s with ready := rest })

/-- Rescale `a * b / c` with rounding to nearest, halves away from zero
(`av_rescale_rnd` with `AV_ROUND_NEAR_INF`). -/
def av_rescale_rnd_near (a b c : Int) : Int :=
  let p := a * b
  if 0 ≤ p then (p + c / 2) / c else -((-p + c / 2) / c)

/-- Model of `av_rescale_q`: rescale a value between two time bases. -/
def av_rescale_q (a : Int) (bq cq : TimeBase) : Int :=
  av_rescale_rnd_near a (bq.num * cq.den) (cq.num * bq.den)

/-- The `AV_NOPTS_VALUE` sentinel. -/
def AV_NOPTS_VALUE : Int := -(2 ^ 63)

/-- Model of `av_packet_rescale_ts`: rescale pts, dts and duration of a
packet from time base `src` to time base `dst`. -/
def av_packet_rescale_ts (p : Packet) (src dst : TimeBase) : Packet :=
  { p with
    pts := if p.pts = AV_NOPTS_VALUE then p.pts else av_rescale_q p.pts src dst
    dts := if p.dts = AV_NOPTS_VALUE then p.dts else av_rescale_q p.dts src dst
    duration := if 0 < p.duration then av_rescale_q p.duration src dst else p.duration }

/-- Observable events of one run, in program order. Constructors
`decodeSubmit`, `decodeReceive`, `scale` and `encSendEOS` are the
vocabulary for decoder, scaler and end-of-stream interactions; the
source contains no call producing them. -/
inductive Event
  | usage
  | diag (msg : String)
  | stdoutMsg (msg : String)
  | registerAll
  | openInput
  | selectStream (i : Int)
  | allocEncCtx
  | encOpen (bit_rate : Int)
  | allocOutputCtx
  | findBestStream (streams : List StreamInfo)
  | allocPacket
  | allocFrame (id : Nat)
  | swsGetContext (srcW srcH dstW dstH : Int)
  | avioAllocCtx
  | avioOpen
  | writeHeader
  | decodeSubmit (p : Packet)
  | decodeReceive (f : Frame)
  | scale (src dst : Frame)
  | encSend (f : Frame)
  | encSendEOS
  | encRecv (p : Packet)
  | rescale (p : Packet) (src dst : TimeBase) (q : Packet)
  | write (p : Packet)
  | unref
  | writeTrailer
  | avioCtxFree
  | avioClose
  | freeFrame (id : Nat)
  | swsFree
  | freePacket
  | freeEncCtx
  | paramsDestroy
  | closeInput
deriving DecidableEq

/-- How the process ends: a `return code` from `main`, or termination by
an exception `main` never catches. -/
inductive Outcome
  | exitCode (code : Int)
  | uncaught (e : StoiError)
deriving DecidableEq

/-- Result of one run: the outcome, the ordered event trace, and the
final encoder state. -/
structure RunResult where
  outcome : Outcome
  events : List Event
  encFinal : EncSt
deriving DecidableEq

/-- Oracle for the external FFmpeg collaborators: success of each
library call, the input container's streams, the demuxed packets, the
output format's `AVFMT_NOFILE` flag, and the initial encoder state. -/
structure World where
  open_input_ok : Bool
  find_stream_info_ok : Bool
  streams : List StreamInfo
  find_decoder_ok : Bool
  alloc_ctx_ok : Bool
  params_ok : Bool
  open2_ok : Bool
  alloc_output_ok : Bool
  packet_alloc_ok : Bool
  frame_alloc_ok : Bool
  sws_ok : Bool
  frame2_alloc_ok : Bool
  nofile : Bool
  avio_open_ok : Bool
  write_header_ok : Bool
  packets : List Packet
  enc0 : EncSt
deriving DecidableEq

/-- The `for` loop of lines 36-41: index of the first stream whose
`codec_type` is video, scanning from index `i`; `-1` when none exists. -/
def findVideoStreamAux : List StreamInfo → Int → Int
  | [], _ => -1
  | s :: rest, i => if s.codec_type = CodecType.video then i else findVideoStreamAux rest (i + 1)

/-- Index of the first video stream, or `-1` (`video_stream_index`). -/
def findVideoStream (ss : List StreamInfo) : Int := findVideoStreamAux ss 0

/-- Fallback record standing for the out-of-bounds memory an invalid
`streams[i]` access designates. -/
def defaultStream : StreamInfo :=
  { codec_type := .other, codec_id := 0, width := 0, height := 0, bit_rate := 0
    time_base := { num := 0, den := 1 } }

/-- Array access `streams[i]`, total with a junk fallback when `i` is
not a valid index. -/
def getStream (ss : List StreamInfo) (i : Int) : StreamInfo := ss.getD i.toNat defaultStream

/-- The `AVERROR_STREAM_NOT_FOUND` error code, `FFERRTAG(0xF8,'S','T','R')`. -/
def AVERROR_STREAM_NOT_FOUND : Int := -1381258232

/-- Model of `av_find_best_stream` for `AVMEDIA_TYPE_VIDEO`: the first
video stream's index, or `AVERROR_STREAM_NOT_FOUND`. -/
def av_find_best_stream (ss : List StreamInfo) : Int :=
  if findVideoStream ss = -1 then AVERROR_STREAM_NOT_FOUND else findVideoStream ss

/-- Time base used as the rescale source: the selected input stream's
(`input_format_context->streams[video_stream_index]`, line 148). -/
def inputTimeBase (w : World) : TimeBase :=
  (getStream w.streams (findVideoStream w.streams)).time_base

/-- Time base used as the rescale target:
`output_format_context->streams[video_stream_id]` (line 148), an access
into the output container's stream array — which holds zero streams —
at index `av_find_best_stream` returned, so it designates the junk
fallback. -/
def outputTimeBase : TimeBase :=
  (getStream [] (av_find_best_stream [])).time_base

/-- Events of the inner `while (avcodec_receive_packet(...) == 0)` drain:
for each ready packet, a receive, the `av_packet_rescale_ts` call and the
`av_interleaved_write_frame` call on the rescaled packet. -/
def drainEvents : List Packet → TimeBase → TimeBase → List Event
  | [], _, _ => []
  | p :: rest, itb, otb =>
    Event.encRecv p ::
    Event.rescale p itb otb (av_packet_rescale_ts p itb otb) ::
    Event.write (av_packet_rescale_ts p itb otb) ::
    drainEvents rest itb otb

/-- The drain loop (lines 147-150 and 157-160): repeatedly receive a
packet, rescale its timestamps, and write it, until the encoder reports
no more output. Defined by its net effect — `drainLoop_eq_step` proves it
satisfies the loop's step equation over `avcodec_receive_packet`. -/
def drainLoop (s : EncSt) (itb otb : TimeBase) : List Event × EncSt :=
  (drainEvents s.ready itb otb, { s with ready := [] })

/-- The main encoding loop (lines 140-154) over the demuxed packets:
skip packets of other streams (unref only); for a packet of the selected
video stream, call `avcodec_send_frame` with the allocated `input_frame`
(on a negative return, print the error and break), then drain, then
unref. Returns the events, the final encoder state, and whether the
loop broke early. -/
def streamLoop (vsi : Int) (itb otb : TimeBase) (fr : Frame) :
    List Packet → EncSt → List Event × EncSt × Bool
  | [], s => ([], s, false)
  | p :: rest, s =>
    if p.stream_index = vsi then
      let r := avcodec_send_frame s (some fr)
      if r.1 < 0 then
        ([Event.encSend fr, Event.diag "Error sending a frame for encoding"], r.2, true)
      else
        let d := drainLoop r.2 itb otb
        let k := streamLoop vsi itb otb fr rest d.2
        (Event.encSend fr :: d.1 ++ Event.unref :: k.1, k.2)
    else
      let k := streamLoop vsi itb otb fr rest s
      (Event.unref :: k.1, k.2)

/-- The embedded `main` (lines 8-186). Follows the source's control flow
branch by branch; every early `return -1` produces `.exitCode (-1)` with
the diagnostic printed so far, and the final path produces `.exitCode 0`
with the success message. -/
def runMain (argv : List String) (w : World) : RunResult :=
  match argv with
  | [_a0, input_file, output_file, a3] =>
    match stoi a3 with
    | .error e => ⟨.uncaught e, [], w.enc0⟩
    | .ok bitrate =>
      let evs := [Event.registerAll]
      if !w.open_input_ok then
        ⟨.exitCode (-1), evs ++ [Event.diag ("Failed to open input file: " ++ input_file)], w.enc0⟩
      else
      let evs := evs ++ [Event.openInput]
      if !w.find_stream_info_ok then
        ⟨.exitCode (-1), evs ++ [Event.diag "Failed to find stream information"], w.enc0⟩
      else
      let vsi := findVideoStream w.streams
      if vsi = -1 then
        ⟨.exitCode (-1), evs ++ [Event.diag "Failed to find video stream"], w.enc0⟩
      else
      let evs := evs ++ [Event.selectStream vsi]
      let video_codecpar := getStream w.streams vsi
      if !w.find_decoder_ok then
        ⟨.exitCode (-1), evs ++ [Event.diag "Failed to find video codec"], w.enc0⟩
      else
      if !w.alloc_ctx_ok then
        ⟨.exitCode (-1), evs ++ [Event.diag "Failed to allocate video encoder context"], w.enc0⟩
      else
      let evs := evs ++ [Event.allocEncCtx]
      if !w.params_ok then
        ⟨.exitCode (-1), evs ++ [Event.diag "Failed to copy codec parameters"], w.enc0⟩
      else
      let ctx : AVCodecContext :=
        { width := video_codecpar.width, height := video_codecpar.height
          bit_rate := wrap32 (bitrate * 1000) }
      if !w.open2_ok then
        ⟨.exitCode (-1), evs ++ [Event.diag "Failed to open video encoder"], w.enc0⟩
      else
      let evs := evs ++ [Event.encOpen ctx.bit_rate]
      if !w.alloc_output_ok then
        ⟨.exitCode (-1), evs ++ [Event.diag "Failed to create output context"], w.enc0⟩
      else
      let evs := evs ++ [Event.allocOutputCtx]
      let outStreams : List StreamInfo := []
      let vsid := av_find_best_stream outStreams
      let evs := evs ++ [Event.findBestStream outStreams]
      if vsid = -1 then
        ⟨.exitCode (-1), evs ++ [Event.diag "Failed to find video stream id"], w.enc0⟩
      else
      if !w.packet_alloc_ok then
        ⟨.exitCode (-1), evs ++ [Event.diag "Failed to allocate encoder packet"], w.enc0⟩
      else
      let evs := evs ++ [Event.allocPacket]
      if !w.frame_alloc_ok then
        ⟨.exitCode (-1), evs ++ [Event.diag "Failed to allocate input frame"], w.enc0⟩
      else
      let input_frame := Frame.allocated 0
      let evs := evs ++ [Event.allocFrame 0]
      if !w.sws_ok then
        ⟨.exitCode (-1), evs ++ [Event.diag "Failed to create SW scaler"], w.enc0⟩
      else
      let evs := evs ++
        [Event.swsGetContext video_codecpar.width video_codecpar.height ctx.width ctx.height]
      if !w.frame2_alloc_ok then
        ⟨.exitCode (-1), evs ++ [Event.diag "Failed to allocate output frame"], w.enc0⟩
      else
      let evs := evs ++ [Event.allocFrame 1]
      if !w.nofile && !w.avio_open_ok then
        ⟨.exitCode (-1), evs ++ [Event.diag ("Failed to open output file: " ++ output_file)], w.enc0⟩
      else
      let evs := evs ++ (if w.nofile then [Event.avioAllocCtx] else [Event.avioOpen])
      if !w.write_header_ok then
        ⟨.exitCode (-1), evs ++ [Event.diag "Failed to write output header"], w.enc0⟩
      else
      let evs := evs ++ [Event.writeHeader]
      let itb := inputTimeBase w
      let otb := outputTimeBase
      let lp := streamLoop vsi itb otb input_frame w.packets w.enc0
      let fl := drainLoop lp.2.1 itb otb
      ⟨.exitCode 0,
        evs ++ lp.1 ++ fl.1 ++
        Event.writeTrailer ::
        (if w.nofile then [Event.avioCtxFree] else [Event.avioClose]) ++
        [Event.freeFrame 1, Event.swsFree, Event.freeFrame 0, Event.freePacket,
         Event.freeEncCtx, Event.paramsDestroy, Event.closeInput,
         Event.stdoutMsg "Conversion completed successfully!"],
        fl.2⟩
  | _ => ⟨.exitCode (-1), [Event.usage], w.enc0⟩

/-- A video stream descriptor for the concrete witness runs. -/
def vStream : StreamInfo :=
  { codec_type := .video, codec_id := 27, width := 640, height := 480, bit_rate := 800000
    time_base := { num := 1, den := 25 } }

/-- An audio stream descriptor for the concrete witness runs. -/
def aStream : StreamInfo :=
  { codec_type := .audio, codec_id := 86018, width := 0, height := 0, bit_rate := 128000
    time_base := { num := 1, den := 44100 } }

/-- A demuxed packet of the video stream. -/
def vPkt : Packet := { stream_index := 0, pts := 100, dts := 100, duration := 40, tag := 1 }

/-- A demuxed packet of the audio stream. -/
def aPkt : Packet := { stream_index := 1, pts := 0, dts := 0, duration := 0, tag := 2 }

/-- A packet the encoder makes ready after a send. -/
def outPkt : Packet := { stream_index := 0, pts := 100, dts := 100, duration := 40, tag := 3 }

/-- A packet the encoder keeps buffered awaiting end-of-stream. -/
def stuckPkt : Packet := { stream_index := 0, pts := 140, dts := 140, duration := 40, tag := 99 }

/-- An encoder that accepts one send and makes one packet ready. -/
def encOK : EncSt := { sends := [(0, [outPkt])], ready := [], pending := [], gotEOS := false }

/-- A well-formed command line: three positional arguments, bitrate 500. -/
def argvOK : List String := ["prog", "in.mp4", "out.3gp", "500"]

/-- A world in which every library call succeeds. -/
def wOK : World :=
  { open_input_ok := true, find_stream_info_ok := true, streams := [vStream, aStream]
    find_decoder_ok := true, alloc_ctx_ok := true, params_ok := true, open2_ok := true
    alloc_output_ok := true, packet_alloc_ok := true, frame_alloc_ok := true, sws_ok := true
    frame2_alloc_ok := true, nofile := false, avio_open_ok := true, write_header_ok := true
    packets := [vPkt, aPkt], enc0 := encOK }

/-- Like `wOK` but the first `avcodec_send_frame` fails (`-EINVAL`). -/
def wEncFail : World :=
  { wOK with enc0 := { sends := [(-22, [])], ready := [], pending := [], gotEOS := false } }

/-- Like `wOK` but the encoder holds a packet that only end-of-stream
would release. -/
def wPending : World :=
  { wOK with packets := [vPkt]
             enc0 := { sends := [(0, [outPkt])], ready := [], pending := [stuckPkt], gotEOS := false } }

/-- Like `wOK` but `avformat_find_stream_info` fails. -/
def wFsiFail : World := { wOK with find_stream_info_ok := false }

/-- Like `wOK` but the source has no video stream. -/
def wNoVideo : World := { wOK with streams := [aStream] }

/-- Whether an event is the one-time selection of the video stream index. -/
def Event.isSelect : Event → Bool
  | .selectStream _ => true
  | _ => false

/-- Holds of an event when it is not a decoder or scaler interaction and,
if it submits a frame to the encoder, that frame was not produced by the
decoder. -/
def noDecodeEvent : Event → Bool
  | .decodeSubmit _ => false
  | .decodeReceive _ => false
  | .scale _ _ => false
  | .encSend f => !f.fromDecoder
  | _ => true

/-- The exact set of events `runMain` can emit: no decoder or scaler
interaction, no end-of-stream signal, output-stream lookups only over an
empty stream list, encoder submissions only of the allocated (undecoded)
`input_frame`, and rescales only from the input stream's time base to the
output lookup's time base with the correct result. -/
def emittable (w : World) : Event → Bool
  | .decodeSubmit _ => false
  | .decodeReceive _ => false
  | .scale _ _ => false
  | .encSendEOS => false
  | .findBestStream ss => decide (ss = [])
  | .encSend f => decide (f = Frame.allocated 0)
  | .rescale p s d q =>
      decide (s = inputTimeBase w ∧ d = outputTimeBase ∧ q = av_packet_rescale_ts p s d)
  | _ => true

/-- Checks that every `write` in a trace immediately follows the
`av_packet_rescale_ts` call producing exactly the packet written. -/
def writesRescaled : List Event → Bool
  | [] => true
  | Event.rescale p s d q :: Event.write r :: rest =>
      decide (q = av_packet_rescale_ts p s d) && decide (r = q) && writesRescaled rest
  | Event.write _ :: _ => false
  | _ :: rest => writesRescaled rest

/-- Holds of an event when any timestamp rescale it performs goes from
the selected input stream's time base to the output-stream lookup's
time base. -/
def rescaleOK (w : World) : Event → Bool
  | .rescale _ s d _ => decide (s = inputTimeBase w ∧ d = outputTimeBase)
  | _ => true

/-- Holds of an event when it touches neither the output container nor
the output file: no allocation, open, header, packet write, trailer or
close on the output side. -/
def noOutputOp : Event → Bool
  | .allocOutputCtx => false
  | .avioOpen => false
  | .avioAllocCtx => false
  | .writeHeader => false
  | .write _ => false
  | .writeTrailer => false
  | .avioClose => false
  | .avioCtxFree => false
  | _ => true

/-- All conditions under which the run passes every setup stage and
reaches the streaming loop: a four-entry argv whose bitrate parses, and
success of every library call up to and including the header write. -/
def setupOk (argv : List String) (w : World) : Bool :=
  match argv with
  | [_, _, _, a3] =>
    (match stoi a3 with | .ok _ => true | .error _ => false) &&
    w.open_input_ok && w.find_stream_info_ok &&
    decide (findVideoStream w.streams ≠ -1) &&
    w.find_decoder_ok && w.alloc_ctx_ok && w.params_ok && w.open2_ok &&
    w.alloc_output_ok && w.packet_alloc_ok && w.frame_alloc_ok && w.sws_ok &&
    w.frame2_alloc_ok && (w.nofile || w.avio_open_ok) && w.write_header_ok
  | _ => false

/-- Heads after which the `writesRescaled` checker simply recurses. -/
def benignHead : Event → Bool
  | .rescale _ _ _ _ => false
  | .write _ => false
  | _ => true

/-- Whether an event is the end-of-stream signal to the encoder. -/
def isEOSSignal : Event → Bool
  | .encSendEOS => true
  | _ => false

/-- Whether an event writes a packet carrying payload tag `t` to the muxer. -/
def writesTag (t : Nat) : Event → Bool
  | .write q => decide (q.tag = t)
  | _ => false

/-- The resource-release sequence of lines 172-181, in source order. -/
def teardownEvents : List Event :=
  [Event.freeFrame 1, Event.swsFree, Event.freeFrame 0, Event.freePacket,
   Event.freeEncCtx, Event.paramsDestroy, Event.closeInput]

/-- The drain loop satisfies the step equation of the source's
`while (avcodec_receive_packet(...) == 0)` loop: faithfulness of the
closed-form definition. -/
theorem drainLoop_eq_step (s : EncSt) (itb otb : TimeBase) :
    drainLoop s itb otb =
      match avcodec_receive_packet s with
      | (none, s2) => ([], s2)
      | (some p, s2) =>
        let q := av_packet_rescale_ts p itb otb
        let d := drainLoop s2 itb otb
        (Event.encRecv p :: Event.rescale p itb otb q :: Event.write q :: d.1, d.2) := by
  cases s with
  | mk sends ready pending g =>
    cases ready with
    | nil => rfl
    | cons p rest => rfl

theorem drainEvents_emittable (w : World) (ps : List Packet) :
    (drainEvents ps (inputTimeBase w) outputTimeBase).all (emittable w) = true := by
  induction ps with
  | nil => rfl
  | cons p rest ih =>
    simp only [drainEvents, List.all_cons, ih, Bool.and_true]
    simp [emittable]

theorem streamLoop_emittable (w : World) (vsi : Int) (ps : List Packet) (s : EncSt) :
    ((streamLoop vsi (inputTimeBase w) outputTimeBase (Frame.allocated 0) ps s).1).all
      (emittable w) = true := by
  induction ps generalizing s with
  | nil => rfl
  | cons p rest ih =>
    simp only [streamLoop]
    by_cases hidx : p.stream_index = vsi
    · simp only [hidx, if_pos]
      by_cases hsnd : (avcodec_send_frame s (some (Frame.allocated 0))).1 < 0
      · simp [hsnd, emittable]
      · simp [hsnd, emittable, drainLoop, List.all_append, drainEvents_emittable, ih]
    · simp [hidx, emittable, ih]

/-- The `av_find_best_stream` return value on the empty output container
is `AVERROR_STREAM_NOT_FOUND`, which the source's `== -1` check misses. -/
theorem avfbs_empty : av_find_best_stream ([] : List StreamInfo) = AVERROR_STREAM_NOT_FOUND := by
  decide

theorem avfbs_empty_ne_neg_one : ¬ av_find_best_stream ([] : List StreamInfo) = -1 := by
  decide

theorem runMain_stoi_err (a0 a1 a2 a3 : String) (w : World) (e : StoiError)
    (hs : stoi a3 = .error e) :
    runMain [a0, a1, a2, a3] w = ⟨.uncaught e, [], w.enc0⟩ := by
  simp [runMain, hs]

theorem runMain_open_fail (a0 a1 a2 a3 : String) (w : World) (k : Int)
    (hs : stoi a3 = .ok k) (h1 : w.open_input_ok = false) :
    runMain [a0, a1, a2, a3] w =
      ⟨.exitCode (-1),
       [Event.registerAll, Event.diag ("Failed to open input file: " ++ a1)], w.enc0⟩ := by
  simp [runMain, hs, h1]

theorem runMain_fsi_fail (a0 a1 a2 a3 : String) (w : World) (k : Int)
    (hs : stoi a3 = .ok k) (h1 : w.open_input_ok = true) (h2 : w.find_stream_info_ok = false) :
    runMain [a0, a1, a2, a3] w =
      ⟨.exitCode (-1),
       [Event.registerAll, Event.openInput, Event.diag "Failed to find stream information"],
       w.enc0⟩ := by
  simp [runMain, hs, h1, h2]

theorem runMain_no_video (a0 a1 a2 a3 : String) (w : World) (k : Int)
    (hs : stoi a3 = .ok k) (h1 : w.open_input_ok = true) (h2 : w.find_stream_info_ok = true)
    (h3 : findVideoStream w.streams = -1) :
    runMain [a0, a1, a2, a3] w =
      ⟨.exitCode (-1),
       [Event.registerAll, Event.openInput, Event.diag "Failed to find video stream"],
       w.enc0⟩ := by
  simp [runMain, hs, h1, h2, h3]

theorem runMain_decoder_fail (a0 a1 a2 a3 : String) (w : World) (k : Int)
    (hs : stoi a3 = .ok k) (h1 : w.open_input_ok = true) (h2 : w.find_stream_info_ok = true)
    (h3 : ¬ findVideoStream w.streams = -1) (h4 : w.find_decoder_ok = false) :
    runMain [a0, a1, a2, a3] w =
      ⟨.exitCode (-1),
       [Event.registerAll, Event.openInput, Event.selectStream (findVideoStream w.streams),
        Event.diag "Failed to find video codec"], w.enc0⟩ := by
  simp [runMain, hs, h1, h2, h3, h4]

theorem runMain_allocctx_fail (a0 a1 a2 a3 : String) (w : World) (k : Int)
    (hs : stoi a3 = .ok k) (h1 : w.open_input_ok = true) (h2 : w.find_stream_info_ok = true)
    (h3 : ¬ findVideoStream w.streams = -1) (h4 : w.find_decoder_ok = true)
    (h5 : w.alloc_ctx_ok = false) :
    runMain [a0, a1, a2, a3] w =
      ⟨.exitCode (-1),
       [Event.registerAll, Event.openInput, Event.selectStream (findVideoStream w.streams),
        Event.diag "Failed to allocate video encoder context"], w.enc0⟩ := by
  simp [runMain, hs, h1, h2, h3, h4, h5]

theorem runMain_params_fail (a0 a1 a2 a3 : String) (w : World) (k : Int)
    (hs : stoi a3 = .ok k) (h1 : w.open_input_ok = true) (h2 : w.find_stream_info_ok = true)
    (h3 : ¬ findVideoStream w.streams = -1) (h4 : w.find_decoder_ok = true)
    (h5 : w.alloc_ctx_ok = true) (h6 : w.params_ok = false) :
    runMain [a0, a1, a2, a3] w =
      ⟨.exitCode (-1),
       [Event.registerAll, Event.openInput, Event.selectStream (findVideoStream w.streams),
        Event.allocEncCtx, Event.diag "Failed to copy codec parameters"], w.enc0⟩ := by
  simp [runMain, hs, h1, h2, h3, h4, h5, h6]

theorem runMain_open2_fail (a0 a1 a2 a3 : String) (w : World) (k : Int)
    (hs : stoi a3 = .ok k) (h1 : w.open_input_ok = true) (h2 : w.find_stream_info_ok = true)
    (h3 : ¬ findVideoStream w.streams = -1) (h4 : w.find_decoder_ok = true)
    (h5 : w.alloc_ctx_ok = true) (h6 : w.params_ok = true) (h7 : w.open2_ok = false) :
    runMain [a0, a1, a2, a3] w =
      ⟨.exitCode (-1),
       [Event.registerAll, Event.openInput, Event.selectStream (findVideoStream w.streams),
        Event.allocEncCtx, Event.diag "Failed to open video encoder"], w.enc0⟩ := by
  simp [runMain, hs, h1, h2, h3, h4, h5, h6, h7]

theorem runMain_allocout_fail (a0 a1 a2 a3 : String) (w : World) (k : Int)
    (hs : stoi a3 = .ok k) (h1 : w.open_input_ok = true) (h2 : w.find_stream_info_ok = true)
    (h3 : ¬ findVideoStream w.streams = -1) (h4 : w.find_decoder_ok = true)
    (h5 : w.alloc_ctx_ok = true) (h6 : w.params_ok = true) (h7 : w.open2_ok = true)
    (h8 : w.alloc_output_ok = false) :
    runMain [a0, a1, a2, a3] w =
      ⟨.exitCode (-1),
       [Event.registerAll, Event.openInput, Event.selectStream (findVideoStream w.streams),
        Event.allocEncCtx, Event.encOpen (wrap32 (k * 1000)),
        Event.diag "Failed to create output context"], w.enc0⟩ := by
  simp [runMain, hs, h1, h2, h3, h4, h5, h6, h7, h8]

theorem runMain_pktalloc_fail (a0 a1 a2 a3 : String) (w : World) (k : Int)
    (hs : stoi a3 = .ok k) (h1 : w.open_input_ok = true) (h2 : w.find_stream_info_ok = true)
    (h3 : ¬ findVideoStream w.streams = -1) (h4 : w.find_decoder_ok = true)
    (h5 : w.alloc_ctx_ok = true) (h6 : w.params_ok = true) (h7 : w.open2_ok = true)
    (h8 : w.alloc_output_ok = true) (h9 : w.packet_alloc_ok = false) :
    runMain [a0, a1, a2, a3] w =
      ⟨.exitCode (-1),
       [Event.registerAll, Event.openInput, Event.selectStream (findVideoStream w.streams),
        Event.allocEncCtx, Event.encOpen (wrap32 (k * 1000)), Event.allocOutputCtx,
        Event.findBestStream [], Event.diag "Failed to allocate encoder packet"], w.enc0⟩ := by
  simp [runMain, hs, h1, h2, h3, h4, h5, h6, h7, h8, h9, avfbs_empty_ne_neg_one]

theorem runMain_framealloc_fail (a0 a1 a2 a3 : String) (w : World) (k : Int)
    (hs : stoi a3 = .ok k) (h1 : w.open_input_ok = true) (h2 : w.find_stream_info_ok = true)
    (h3 : ¬ findVideoStream w.streams = -1) (h4 : w.find_decoder_ok = true)
    (h5 : w.alloc_ctx_ok = true) (h6 : w.params_ok = true) (h7 : w.open2_ok = true)
    (h8 : w.alloc_output_ok = true) (h9 : w.packet_alloc_ok = true)
    (h10 : w.frame_alloc_ok = false) :
    runMain [a0, a1, a2, a3] w =
      ⟨.exitCode (-1),
       [Event.registerAll, Event.openInput, Event.selectStream (findVideoStream w.streams),
        Event.allocEncCtx, Event.encOpen (wrap32 (k * 1000)), Event.allocOutputCtx,
        Event.findBestStream [], Event.allocPacket,
        Event.diag "Failed to allocate input frame"], w.enc0⟩ := by
  simp [runMain, hs, h1, h2, h3, h4, h5, h6, h7, h8, h9, h10, avfbs_empty_ne_neg_one]

theorem runMain_sws_fail (a0 a1 a2 a3 : String) (w : World) (k : Int)
    (hs : stoi a3 = .ok k) (h1 : w.open_input_ok = true) (h2 : w.find_stream_info_ok = true)
    (h3 : ¬ findVideoStream w.streams = -1) (h4 : w.find_decoder_ok = true)
    (h5 : w.alloc_ctx_ok = true) (h6 : w.params_ok = true) (h7 : w.open2_ok = true)
    (h8 : w.alloc_output_ok = true) (h9 : w.packet_alloc_ok = true)
    (h10 : w.frame_alloc_ok = true) (h11 : w.sws_ok = false) :
    runMain [a0, a1, a2, a3] w =
      ⟨.exitCode (-1),
       [Event.registerAll, Event.openInput, Event.selectStream (findVideoStream w.streams),
        Event.allocEncCtx, Event.encOpen (wrap32 (k * 1000)), Event.allocOutputCtx,
        Event.findBestStream [], Event.allocPacket, Event.allocFrame 0,
        Event.diag "Failed to create SW scaler"], w.enc0⟩ := by
  simp [runMain, hs, h1, h2, h3, h4, h5, h6, h7, h8, h9, h10, h11, avfbs_empty_ne_neg_one]

theorem runMain_frame2_fail (a0 a1 a2 a3 : String) (w : World) (k : Int)
    (hs : stoi a3 = .ok k) (h1 : w.open_input_ok = true) (h2 : w.find_stream_info_ok = true)
    (h3 : ¬ findVideoStream w.streams = -1) (h4 : w.find_decoder_ok = true)
    (h5 : w.alloc_ctx_ok = true) (h6 : w.params_ok = true) (h7 : w.open2_ok = true)
    (h8 : w.alloc_output_ok = true) (h9 : w.packet_alloc_ok = true)
    (h10 : w.frame_alloc_ok = true) (h11 : w.sws_ok = true) (h12 : w.frame2_alloc_ok = false) :
    runMain [a0, a1, a2, a3] w =
      ⟨.exitCode (-1),
       [Event.registerAll, Event.openInput, Event.selectStream (findVideoStream w.streams),
        Event.allocEncCtx, Event.encOpen (wrap32 (k * 1000)), Event.allocOutputCtx,
        Event.findBestStream [], Event.allocPacket, Event.allocFrame 0,
        Event.swsGetContext (getStream w.streams (findVideoStream w.streams)).width
          (getStream w.streams (findVideoStream w.streams)).height
          (getStream w.streams (findVideoStream w.streams)).width
          (getStream w.streams (findVideoStream w.streams)).height,
        Event.diag "Failed to allocate output frame"], w.enc0⟩ := by
  simp [runMain, hs, h1, h2, h3, h4, h5, h6, h7, h8, h9, h10, h11, h12, avfbs_empty_ne_neg_one]

theorem runMain_avio_fail (a0 a1 a2 a3 : String) (w : World) (k : Int)
    (hs : stoi a3 = .ok k) (h1 : w.open_input_ok = true) (h2 : w.find_stream_info_ok = true)
    (h3 : ¬ findVideoStream w.streams = -1) (h4 : w.find_decoder_ok = true)
    (h5 : w.alloc_ctx_ok = true) (h6 : w.params_ok = true) (h7 : w.open2_ok = true)
    (h8 : w.alloc_output_ok = true) (h9 : w.packet_alloc_ok = true)
    (h10 : w.frame_alloc_ok = true) (h11 : w.sws_ok = true) (h12 : w.frame2_alloc_ok = true)
    (h13 : w.nofile = false) (h14 : w.avio_open_ok = false) :
    runMain [a0, a1, a2, a3] w =
      ⟨.exitCode (-1),
       [Event.registerAll, Event.openInput, Event.selectStream (findVideoStream w.streams),
        Event.allocEncCtx, Event.encOpen (wrap32 (k * 1000)), Event.allocOutputCtx,
        Event.findBestStream [], Event.allocPacket, Event.allocFrame 0,
        Event.swsGetContext (getStream w.streams (findVideoStream w.streams)).width
          (getStream w.streams (findVideoStream w.streams)).height
          (getStream w.streams (findVideoStream w.streams)).width
          (getStream w.streams (findVideoStream w.streams)).height,
        Event.allocFrame 1,
        Event.diag ("Failed to open output file: " ++ a2)], w.enc0⟩ := by
  simp [runMain, hs, h1, h2, h3, h4, h5, h6, h7, h8, h9, h10, h11, h12, h13, h14,
    avfbs_empty_ne_neg_one]

theorem runMain_header_fail (a0 a1 a2 a3 : String) (w : World) (k : Int)
    (hs : stoi a3 = .ok k) (h1 : w.open_input_ok = true) (h2 : w.find_stream_info_ok = true)
    (h3 : ¬ findVideoStream w.streams = -1) (h4 : w.find_decoder_ok = true)
    (h5 : w.alloc_ctx_ok = true) (h6 : w.params_ok = true) (h7 : w.open2_ok = true)
    (h8 : w.alloc_output_ok = true) (h9 : w.packet_alloc_ok = true)
    (h10 : w.frame_alloc_ok = true) (h11 : w.sws_ok = true) (h12 : w.frame2_alloc_ok = true)
    (h13 : (!w.nofile && !w.avio_open_ok) = false) (h14 : w.write_header_ok = false) :
    runMain [a0, a1, a2, a3] w =
      ⟨.exitCode (-1),
       [Event.registerAll, Event.openInput, Event.selectStream (findVideoStream w.streams),
        Event.allocEncCtx, Event.encOpen (wrap32 (k * 1000)), Event.allocOutputCtx,
        Event.findBestStream [], Event.allocPacket, Event.allocFrame 0,
        Event.swsGetContext (getStream w.streams (findVideoStream w.streams)).width
          (getStream w.streams (findVideoStream w.streams)).height
          (getStream w.streams (findVideoStream w.streams)).width
          (getStream w.streams (findVideoStream w.streams)).height,
        Event.allocFrame 1] ++
       (if w.nofile then [Event.avioAllocCtx] else [Event.avioOpen]) ++
       [Event.diag "Failed to write output header"], w.enc0⟩ := by
  simp [runMain, hs, h1, h2, h3, h4, h5, h6, h7, h8, h9, h10, h11, h12, h13, h14,
    avfbs_empty_ne_neg_one]

theorem runMain_success (a0 a1 a2 a3 : String) (w : World) (k : Int)
    (hs : stoi a3 = .ok k) (h1 : w.open_input_ok = true) (h2 : w.find_stream_info_ok = true)
    (h3 : ¬ findVideoStream w.streams = -1) (h4 : w.find_decoder_ok = true)
    (h5 : w.alloc_ctx_ok = true) (h6 : w.params_ok = true) (h7 : w.open2_ok = true)
    (h8 : w.alloc_output_ok = true) (h9 : w.packet_alloc_ok = true)
    (h10 : w.frame_alloc_ok = true) (h11 : w.sws_ok = true) (h12 : w.frame2_alloc_ok = true)
    (h13 : (!w.nofile && !w.avio_open_ok) = false) (h14 : w.write_header_ok = true) :
    runMain [a0, a1, a2, a3] w =
      ⟨.exitCode 0,
       [Event.registerAll, Event.openInput, Event.selectStream (findVideoStream w.streams),
        Event.allocEncCtx, Event.encOpen (wrap32 (k * 1000)), Event.allocOutputCtx,
        Event.findBestStream [], Event.allocPacket, Event.allocFrame 0,
        Event.swsGetContext (getStream w.streams (findVideoStream w.streams)).width
          (getStream w.streams (findVideoStream w.streams)).height
          (getStream w.streams (findVideoStream w.streams)).width
          (getStream w.streams (findVideoStream w.streams)).height,
        Event.allocFrame 1] ++
       (if w.nofile then [Event.avioAllocCtx] else [Event.avioOpen]) ++
       [Event.writeHeader] ++
       (streamLoop (findVideoStream w.streams) (inputTimeBase w) outputTimeBase
         (Frame.allocated 0) w.packets w.enc0).1 ++
       (drainLoop (streamLoop (findVideoStream w.streams) (inputTimeBase w) outputTimeBase
         (Frame.allocated 0) w.packets w.enc0).2.1 (inputTimeBase w) outputTimeBase).1 ++
       [Event.writeTrailer] ++
       (if w.nofile then [Event.avioCtxFree] else [Event.avioClose]) ++
       teardownEvents ++ [Event.stdoutMsg "Conversion completed successfully!"],
       (drainLoop (streamLoop (findVideoStream w.streams) (inputTimeBase w) outputTimeBase
         (Frame.allocated 0) w.packets w.enc0).2.1 (inputTimeBase w) outputTimeBase).2⟩ := by
  simp [runMain, hs, h1, h2, h3, h4, h5, h6, h7, h8, h9, h10, h11, h12, h13, h14,
    avfbs_empty_ne_neg_one, teardownEvents, drainLoop]

theorem runMain_emittable (argv : List String) (w : World) :
    ((runMain argv w).events).all (emittable w) = true := by
  rcases argv with _ | ⟨a0, _ | ⟨a1, _ | ⟨a2, _ | ⟨a3, _ | ⟨a4, rest⟩⟩⟩⟩⟩
  · rfl
  · rfl
  · rfl
  · rfl
  case cons.cons.cons.cons.cons => rfl
  rcases hs : stoi a3 with e0 | k
  · rw [runMain_stoi_err a0 a1 a2 a3 w e0 hs]; rfl
  cases h1 : w.open_input_ok
  · rw [runMain_open_fail a0 a1 a2 a3 w k hs h1]; rfl
  cases h2 : w.find_stream_info_ok
  · rw [runMain_fsi_fail a0 a1 a2 a3 w k hs h1 h2]; rfl
  by_cases h3 : findVideoStream w.streams = -1
  · rw [runMain_no_video a0 a1 a2 a3 w k hs h1 h2 h3]; rfl
  cases h4 : w.find_decoder_ok
  · rw [runMain_decoder_fail a0 a1 a2 a3 w k hs h1 h2 h3 h4]; rfl
  cases h5 : w.alloc_ctx_ok
  · rw [runMain_allocctx_fail a0 a1 a2 a3 w k hs h1 h2 h3 h4 h5]; rfl
  cases h6 : w.params_ok
  · rw [runMain_params_fail a0 a1 a2 a3 w k hs h1 h2 h3 h4 h5 h6]; rfl
  cases h7 : w.open2_ok
  · rw [runMain_open2_fail a0 a1 a2 a3 w k hs h1 h2 h3 h4 h5 h6 h7]; rfl
  cases h8 : w.alloc_output_ok
  · rw [runMain_allocout_fail a0 a1 a2 a3 w k hs h1 h2 h3 h4 h5 h6 h7 h8]; rfl
  cases h9 : w.packet_alloc_ok
  · rw [runMain_pktalloc_fail a0 a1 a2 a3 w k hs h1 h2 h3 h4 h5 h6 h7 h8 h9]; rfl
  cases h10 : w.frame_alloc_ok
  · rw [runMain_framealloc_fail a0 a1 a2 a3 w k hs h1 h2 h3 h4 h5 h6 h7 h8 h9 h10]; rfl
  cases h11 : w.sws_ok
  · rw [runMain_sws_fail a0 a1 a2 a3 w k hs h1 h2 h3 h4 h5 h6 h7 h8 h9 h10 h11]; rfl
  cases h12 : w.frame2_alloc_ok
  · rw [runMain_frame2_fail a0 a1 a2 a3 w k hs h1 h2 h3 h4 h5 h6 h7 h8 h9 h10 h11 h12]; rfl
  cases hnf : w.nofile
  · cases h13 : w.avio_open_ok
    · rw [runMain_avio_fail a0 a1 a2 a3 w k hs h1 h2 h3 h4 h5 h6 h7 h8 h9 h10 h11 h12 hnf h13]
      rfl
    · have hav : (!w.nofile && !w.avio_open_ok) = false := by rw [hnf, h13]; rfl
      cases h14 : w.write_header_ok
      · rw [runMain_header_fail a0 a1 a2 a3 w k hs h1 h2 h3 h4 h5 h6 h7 h8 h9 h10 h11 h12 hav h14,
          hnf]
        rfl
      · rw [runMain_success a0 a1 a2 a3 w k hs h1 h2 h3 h4 h5 h6 h7 h8 h9 h10 h11 h12 hav h14, hnf]
        simp only [List.all_append, List.all_cons, List.all_nil, Bool.and_eq_true]
        repeat' apply And.intro
        all_goals first
          | rfl
          | trivial
          | exact streamLoop_emittable w _ _ _
          | exact drainEvents_emittable w _
  · have hav : (!w.nofile && !w.avio_open_ok) = false := by rw [hnf]; rfl
    cases h14 : w.write_header_ok
    · rw [runMain_header_fail a0 a1 a2 a3 w k hs h1 h2 h3 h4 h5 h6 h7 h8 h9 h10 h11 h12 hav h14,
        hnf]
      rfl
    · rw [runMain_success a0 a1 a2 a3 w k hs h1 h2 h3 h4 h5 h6 h7 h8 h9 h10 h11 h12 hav h14, hnf]
      simp only [List.all_append, List.all_cons, List.all_nil, Bool.and_eq_true]
      repeat' apply And.intro
      all_goals first
        | rfl
        | trivial
        | exact streamLoop_emittable w _ _ _
        | exact drainEvents_emittable w _

theorem drainEvents_all {P : Event → Bool} {itb otb : TimeBase}
    (hr : ∀ p, P (Event.encRecv p) = true)
    (hsc : ∀ p, P (Event.rescale p itb otb (av_packet_rescale_ts p itb otb)) = true)
    (hw : ∀ p, P (Event.write (av_packet_rescale_ts p itb otb)) = true)
    (ps : List Packet) : (drainEvents ps itb otb).all P = true := by
  induction ps with
  | nil => rfl
  | cons p rest ih => simp [drainEvents, List.all_cons, ih, hr, hsc, hw]

theorem streamLoop_all {P : Event → Bool} {vsi : Int} {itb otb : TimeBase} {fr : Frame}
    (hsend : P (Event.encSend fr) = true)
    (hdiag : P (Event.diag "Error sending a frame for encoding") = true)
    (hunref : P Event.unref = true)
    (hr : ∀ p, P (Event.encRecv p) = true)
    (hsc : ∀ p, P (Event.rescale p itb otb (av_packet_rescale_ts p itb otb)) = true)
    (hw : ∀ p, P (Event.write (av_packet_rescale_ts p itb otb)) = true) :
    ∀ ps s, ((streamLoop vsi itb otb fr ps s).1).all P = true := by
  intro ps
  induction ps with
  | nil => intro s; rfl
  | cons p rest ih =>
    intro s
    by_cases hidx : p.stream_index = vsi
    · by_cases hsnd : (avcodec_send_frame s (some fr)).1 < 0
      · simp [streamLoop, hidx, hsnd, hsend, hdiag]
      · simp [streamLoop, hidx, hsnd, hsend, hunref, List.all_append, ih,
          drainLoop, drainEvents_all hr hsc hw]
    · simp [streamLoop, hidx, hunref, ih]

theorem emittable_noDecode (w : World) (e : Event) (h : emittable w e = true) :
    noDecodeEvent e = true := by
  cases e <;> first
    | rfl
    | (simp [emittable] at h; subst h; rfl)
    | simp [emittable] at h

theorem emittable_rescaleOK (w : World) (e : Event) (h : emittable w e = true) :
    rescaleOK w e = true := by
  cases e with
  | rescale p s d q =>
    simp only [emittable, decide_eq_true_eq] at h
    simp [rescaleOK, h.1, h.2.1]
  | decodeSubmit p => simp [emittable] at h
  | decodeReceive f => simp [emittable] at h
  | scale a b => simp [emittable] at h
  | encSendEOS => simp [emittable] at h
  | _ => rfl

theorem runMain_no_eos (argv : List String) (w : World) :
    Event.encSendEOS ∉ (runMain argv w).events := by
  intro hmem
  have h := List.all_eq_true.mp (runMain_emittable argv w) _ hmem
  simp [emittable] at h

theorem runMain_success_file (a0 a1 a2 a3 : String) (w : World) (k : Int)
    (hs : stoi a3 = .ok k) (h1 : w.open_input_ok = true) (h2 : w.find_stream_info_ok = true)
    (h3 : ¬ findVideoStream w.streams = -1) (h4 : w.find_decoder_ok = true)
    (h5 : w.alloc_ctx_ok = true) (h6 : w.params_ok = true) (h7 : w.open2_ok = true)
    (h8 : w.alloc_output_ok = true) (h9 : w.packet_alloc_ok = true)
    (h10 : w.frame_alloc_ok = true) (h11 : w.sws_ok = true) (h12 : w.frame2_alloc_ok = true)
    (hnf : w.nofile = false) (h13 : w.avio_open_ok = true) (h14 : w.write_header_ok = true) :
    runMain [a0, a1, a2, a3] w =
      ⟨.exitCode 0,
       [Event.registerAll, Event.openInput, Event.selectStream (findVideoStream w.streams),
        Event.allocEncCtx, Event.encOpen (wrap32 (k * 1000)), Event.allocOutputCtx,
        Event.findBestStream [], Event.allocPacket, Event.allocFrame 0,
        Event.swsGetContext (getStream w.streams (findVideoStream w.streams)).width
          (getStream w.streams (findVideoStream w.streams)).height
          (getStream w.streams (findVideoStream w.streams)).width
          (getStream w.streams (findVideoStream w.streams)).height,
        Event.allocFrame 1, Event.avioOpen, Event.writeHeader] ++
       ((streamLoop (findVideoStream w.streams) (inputTimeBase w) outputTimeBase
         (Frame.allocated 0) w.packets w.enc0).1 ++
       ((drainLoop (streamLoop (findVideoStream w.streams) (inputTimeBase w) outputTimeBase
         (Frame.allocated 0) w.packets w.enc0).2.1 (inputTimeBase w) outputTimeBase).1 ++
       Event.writeTrailer :: Event.avioClose ::
         (teardownEvents ++ [Event.stdoutMsg "Conversion completed successfully!"]))),
       (drainLoop (streamLoop (findVideoStream w.streams) (inputTimeBase w) outputTimeBase
         (Frame.allocated 0) w.packets w.enc0).2.1 (inputTimeBase w) outputTimeBase).2⟩ := by
  have hav : (!w.nofile && !w.avio_open_ok) = false := by rw [hnf, h13]; rfl
  rw [runMain_success a0 a1 a2 a3 w k hs h1 h2 h3 h4 h5 h6 h7 h8 h9 h10 h11 h12 hav h14, hnf]
  simp [teardownEvents]

theorem runMain_success_nofile (a0 a1 a2 a3 : String) (w : World) (k : Int)
    (hs : stoi a3 = .ok k) (h1 : w.open_input_ok = true) (h2 : w.find_stream_info_ok = true)
    (h3 : ¬ findVideoStream w.streams = -1) (h4 : w.find_decoder_ok = true)
    (h5 : w.alloc_ctx_ok = true) (h6 : w.params_ok = true) (h7 : w.open2_ok = true)
    (h8 : w.alloc_output_ok = true) (h9 : w.packet_alloc_ok = true)
    (h10 : w.frame_alloc_ok = true) (h11 : w.sws_ok = true) (h12 : w.frame2_alloc_ok = true)
    (hnf : w.nofile = true) (h14 : w.write_header_ok = true) :
    runMain [a0, a1, a2, a3] w =
      ⟨.exitCode 0,
       [Event.registerAll, Event.openInput, Event.selectStream (findVideoStream w.streams),
        Event.allocEncCtx, Event.encOpen (wrap32 (k * 1000)), Event.allocOutputCtx,
        Event.findBestStream [], Event.allocPacket, Event.allocFrame 0,
        Event.swsGetContext (getStream w.streams (findVideoStream w.streams)).width
          (getStream w.streams (findVideoStream w.streams)).height
          (getStream w.streams (findVideoStream w.streams)).width
          (getStream w.streams (findVideoStream w.streams)).height,
        Event.allocFrame 1, Event.avioAllocCtx, Event.writeHeader] ++
       ((streamLoop (findVideoStream w.streams) (inputTimeBase w) outputTimeBase
         (Frame.allocated 0) w.packets w.enc0).1 ++
       ((drainLoop (streamLoop (findVideoStream w.streams) (inputTimeBase w) outputTimeBase
         (Frame.allocated 0) w.packets w.enc0).2.1 (inputTimeBase w) outputTimeBase).1 ++
       Event.writeTrailer :: Event.avioCtxFree ::
         (teardownEvents ++ [Event.stdoutMsg "Conversion completed successfully!"]))),
       (drainLoop (streamLoop (findVideoStream w.streams) (inputTimeBase w) outputTimeBase
         (Frame.allocated 0) w.packets w.enc0).2.1 (inputTimeBase w) outputTimeBase).2⟩ := by
  have hav : (!w.nofile && !w.avio_open_ok) = false := by rw [hnf]; rfl
  rw [runMain_success a0 a1 a2 a3 w k hs h1 h2 h3 h4 h5 h6 h7 h8 h9 h10 h11 h12 hav h14, hnf]
  simp [teardownEvents]

theorem runMain_exit_zero_iff (argv : List String) (w : World) :
    (runMain argv w).outcome = Outcome.exitCode 0 ↔ setupOk argv w = true := by
  rcases argv with _ | ⟨a0, _ | ⟨a1, _ | ⟨a2, _ | ⟨a3, _ | ⟨a4, rest⟩⟩⟩⟩⟩
  · simp [runMain, setupOk]
  · simp [runMain, setupOk]
  · simp [runMain, setupOk]
  · simp [runMain, setupOk]
  case cons.cons.cons.cons.cons => simp [runMain, setupOk]
  rcases hs : stoi a3 with e0 | k
  · rw [runMain_stoi_err a0 a1 a2 a3 w e0 hs]; simp [setupOk, hs]
  cases h1 : w.open_input_ok
  · rw [runMain_open_fail a0 a1 a2 a3 w k hs h1]; simp [setupOk, hs, h1]
  cases h2 : w.find_stream_info_ok
  · rw [runMain_fsi_fail a0 a1 a2 a3 w k hs h1 h2]; simp [setupOk, hs, h1, h2]
  by_cases h3 : findVideoStream w.streams = -1
  · rw [runMain_no_video a0 a1 a2 a3 w k hs h1 h2 h3]; simp [setupOk, hs, h1, h2, h3]
  cases h4 : w.find_decoder_ok
  · rw [runMain_decoder_fail a0 a1 a2 a3 w k hs h1 h2 h3 h4]
    simp [setupOk, hs, h1, h2, h3, h4]
  cases h5 : w.alloc_ctx_ok
  · rw [runMain_allocctx_fail a0 a1 a2 a3 w k hs h1 h2 h3 h4 h5]
    simp [setupOk, hs, h1, h2, h3, h4, h5]
  cases h6 : w.params_ok
  · rw [runMain_params_fail a0 a1 a2 a3 w k hs h1 h2 h3 h4 h5 h6]
    simp [setupOk, hs, h1, h2, h3, h4, h5, h6]
  cases h7 : w.open2_ok
  · rw [runMain_open2_fail a0 a1 a2 a3 w k hs h1 h2 h3 h4 h5 h6 h7]
    simp [setupOk, hs, h1, h2, h3, h4, h5, h6, h7]
  cases h8 : w.alloc_output_ok
  · rw [runMain_allocout_fail a0 a1 a2 a3 w k hs h1 h2 h3 h4 h5 h6 h7 h8]
    simp [setupOk, hs, h1, h2, h3, h4, h5, h6, h7, h8]
  cases h9 : w.packet_alloc_ok
  · rw [runMain_pktalloc_fail a0 a1 a2 a3 w k hs h1 h2 h3 h4 h5 h6 h7 h8 h9]
    simp [setupOk, hs, h1, h2, h3, h4, h5, h6, h7, h8, h9]
  cases h10 : w.frame_alloc_ok
  · rw [runMain_framealloc_fail a0 a1 a2 a3 w k hs h1 h2 h3 h4 h5 h6 h7 h8 h9 h10]
    simp [setupOk, hs, h1, h2, h3, h4, h5, h6, h7, h8, h9, h10]
  cases h11 : w.sws_ok
  · rw [runMain_sws_fail a0 a1 a2 a3 w k hs h1 h2 h3 h4 h5 h6 h7 h8 h9 h10 h11]
    simp [setupOk, hs, h1, h2, h3, h4, h5, h6, h7, h8, h9, h10, h11]
  cases h12 : w.frame2_alloc_ok
  · rw [runMain_frame2_fail a0 a1 a2 a3 w k hs h1 h2 h3 h4 h5 h6 h7 h8 h9 h10 h11 h12]
    simp [setupOk, hs, h1, h2, h3, h4, h5, h6, h7, h8, h9, h10, h11, h12]
  cases hnf : w.nofile
  · cases h13 : w.avio_open_ok
    · rw [runMain_avio_fail a0 a1 a2 a3 w k hs h1 h2 h3 h4 h5 h6 h7 h8 h9 h10 h11 h12 hnf h13]
      simp [setupOk, hs, h1, h2, h3, h4, h5, h6, h7, h8, h9, h10, h11, h12, hnf, h13]
    · have hav : (!w.nofile && !w.avio_open_ok) = false := by rw [hnf, h13]; rfl
      cases h14 : w.write_header_ok
      · rw [runMain_header_fail a0 a1 a2 a3 w k hs h1 h2 h3 h4 h5 h6 h7 h8 h9 h10 h11 h12 hav h14]
        simp [setupOk, hs, h1, h2, h3, h4, h5, h6, h7, h8, h9, h10, h11, h12, hnf, h13, h14]
      · rw [runMain_success a0 a1 a2 a3 w k hs h1 h2 h3 h4 h5 h6 h7 h8 h9 h10 h11 h12 hav h14]
        simp [setupOk, hs, h1, h2, h3, h4, h5, h6, h7, h8, h9, h10, h11, h12, hnf, h13, h14]
  · have hav : (!w.nofile && !w.avio_open_ok) = false := by rw [hnf]; rfl
    cases h14 : w.write_header_ok
    · rw [runMain_header_fail a0 a1 a2 a3 w k hs h1 h2 h3 h4 h5 h6 h7 h8 h9 h10 h11 h12 hav h14]
      simp [setupOk, hs, h1, h2, h3, h4, h5, h6, h7, h8, h9, h10, h11, h12, hnf, h14]
    · rw [runMain_success a0 a1 a2 a3 w k hs h1 h2 h3 h4 h5 h6 h7 h8 h9 h10 h11 h12 hav h14]
      simp [setupOk, hs, h1, h2, h3, h4, h5, h6, h7, h8, h9, h10, h11, h12, hnf, h14]

theorem writesRescaled_drain_append (itb otb : TimeBase) (ps : List Packet) (t : List Event) :
    writesRescaled (drainEvents ps itb otb ++ t) = writesRescaled t := by
  induction ps with
  | nil => rfl
  | cons p rest ih => simp [drainEvents, writesRescaled, ih]

theorem writesRescaled_stream_append (vsi : Int) (itb otb : TimeBase) (fr : Frame)
    (ps : List Packet) (s : EncSt) (t : List Event) :
    writesRescaled ((streamLoop vsi itb otb fr ps s).1 ++ t) = writesRescaled t := by
  induction ps generalizing s with
  | nil => rfl
  | cons p rest ih =>
    by_cases hidx : p.stream_index = vsi
    · by_cases hsnd : (avcodec_send_frame s (some fr)).1 < 0
      · simp [streamLoop, hidx, hsnd, writesRescaled]
      · simp only [streamLoop, hidx, if_pos, hsnd, if_neg, ite_false, ite_true]
        simp only [List.cons_append, List.append_assoc]
        rw [show ∀ l : List Event, writesRescaled (Event.encSend fr :: l) = writesRescaled l
            from fun l => rfl]
        rw [drainLoop]
        simp only [List.cons_append]
        rw [writesRescaled_drain_append]
        rw [show ∀ l : List Event, writesRescaled (Event.unref :: l) = writesRescaled l
            from fun l => rfl]
        exact ih _
    · simp only [streamLoop, hidx, ite_false, if_neg, not_false_iff, List.cons_append]
      rw [show ∀ l : List Event, writesRescaled (Event.unref :: l) = writesRescaled l
          from fun l => rfl]
      exact ih _

theorem writesRescaled_drainLoop_append (s : EncSt) (itb otb : TimeBase) (t : List Event) :
    writesRescaled ((drainLoop s itb otb).1 ++ t) = writesRescaled t :=
  writesRescaled_drain_append itb otb s.ready t

theorem writesRescaled_cons_benign {e : Event} (he : benignHead e = true) (l : List Event) :
    writesRescaled (e :: l) = writesRescaled l := by
  cases e <;> first | rfl | simp [benignHead] at he

set_option maxHeartbeats 1000000 in
theorem runMain_writesRescaled (argv : List String) (w : World) :
    writesRescaled ((runMain argv w).events) = true := by
  rcases argv with _ | ⟨a0, _ | ⟨a1, _ | ⟨a2, _ | ⟨a3, _ | ⟨a4, rest⟩⟩⟩⟩⟩
  · rfl
  · rfl
  · rfl
  · rfl
  case cons.cons.cons.cons.cons => rfl
  rcases hs : stoi a3 with e0 | k
  · rw [runMain_stoi_err a0 a1 a2 a3 w e0 hs]; rfl
  cases h1 : w.open_input_ok
  · rw [runMain_open_fail a0 a1 a2 a3 w k hs h1]; rfl
  cases h2 : w.find_stream_info_ok
  · rw [runMain_fsi_fail a0 a1 a2 a3 w k hs h1 h2]; rfl
  by_cases h3 : findVideoStream w.streams = -1
  · rw [runMain_no_video a0 a1 a2 a3 w k hs h1 h2 h3]; rfl
  cases h4 : w.find_decoder_ok
  · rw [runMain_decoder_fail a0 a1 a2 a3 w k hs h1 h2 h3 h4]; rfl
  cases h5 : w.alloc_ctx_ok
  · rw [runMain_allocctx_fail a0 a1 a2 a3 w k hs h1 h2 h3 h4 h5]; rfl
  cases h6 : w.params_ok
  · rw [runMain_params_fail a0 a1 a2 a3 w k hs h1 h2 h3 h4 h5 h6]; rfl
  cases h7 : w.open2_ok
  · rw [runMain_open2_fail a0 a1 a2 a3 w k hs h1 h2 h3 h4 h5 h6 h7]; rfl
  cases h8 : w.alloc_output_ok
  · rw [runMain_allocout_fail a0 a1 a2 a3 w k hs h1 h2 h3 h4 h5 h6 h7 h8]; rfl
  cases h9 : w.packet_alloc_ok
  · rw [runMain_pktalloc_fail a0 a1 a2 a3 w k hs h1 h2 h3 h4 h5 h6 h7 h8 h9]; rfl
  cases h10 : w.frame_alloc_ok
  · rw [runMain_framealloc_fail a0 a1 a2 a3 w k hs h1 h2 h3 h4 h5 h6 h7 h8 h9 h10]; rfl
  cases h11 : w.sws_ok
  · rw [runMain_sws_fail a0 a1 a2 a3 w k hs h1 h2 h3 h4 h5 h6 h7 h8 h9 h10 h11]; rfl
  cases h12 : w.frame2_alloc_ok
  · rw [runMain_frame2_fail a0 a1 a2 a3 w k hs h1 h2 h3 h4 h5 h6 h7 h8 h9 h10 h11 h12]; rfl
  cases hnf : w.nofile
  · cases h13 : w.avio_open_ok
    · rw [runMain_avio_fail a0 a1 a2 a3 w k hs h1 h2 h3 h4 h5 h6 h7 h8 h9 h10 h11 h12 hnf h13]
      rfl
    · have hav : (!w.nofile && !w.avio_open_ok) = false := by rw [hnf, h13]; rfl
      cases h14 : w.write_header_ok
      · rw [runMain_header_fail a0 a1 a2 a3 w k hs h1 h2 h3 h4 h5 h6 h7 h8 h9 h10 h11 h12 hav h14,
          hnf]
        rfl
      · rw [runMain_success_file a0 a1 a2 a3 w k hs h1 h2 h3 h4 h5 h6 h7 h8 h9 h10 h11 h12 hnf
          h13 h14]
        simp only [List.cons_append, List.append_assoc]
        simp only [writesRescaled_cons_benign, benignHead]
        simp only [List.nil_append]
        rw [writesRescaled_stream_append, writesRescaled_drainLoop_append]
        rfl
  · have hav : (!w.nofile && !w.avio_open_ok) = false := by rw [hnf]; rfl
    cases h14 : w.write_header_ok
    · rw [runMain_header_fail a0 a1 a2 a3 w k hs h1 h2 h3 h4 h5 h6 h7 h8 h9 h10 h11 h12 hav h14,
        hnf]
      rfl
    · rw [runMain_success_nofile a0 a1 a2 a3 w k hs h1 h2 h3 h4 h5 h6 h7 h8 h9 h10 h11 h12 hnf h14]
      simp only [List.cons_append, List.append_assoc]
      simp only [writesRescaled_cons_benign, benignHead]
      simp only [List.nil_append]
      rw [writesRescaled_stream_append, writesRescaled_drainLoop_append]
      rfl

theorem emittable_not_eos (w : World) (e : Event) (h : emittable w e = true) :
    (!isEOSSignal e) = true := by
  cases e <;> first | rfl | simp [emittable] at h

theorem runMain_noDecode (argv : List String) (w : World) :
    ((runMain argv w).events).all noDecodeEvent = true := by
  rw [List.all_eq_true]
  intro e he
  exact emittable_noDecode w e (List.all_eq_true.mp (runMain_emittable argv w) e he)

theorem runMain_rescaleOK (argv : List String) (w : World) :
    ((runMain argv w).events).all (rescaleOK w) = true := by
  rw [List.all_eq_true]
  intro e he
  exact emittable_rescaleOK w e (List.all_eq_true.mp (runMain_emittable argv w) e he)

theorem runMain_no_eos_bool (argv : List String) (w : World) :
    ((runMain argv w).events).all (fun e => !isEOSSignal e) = true := by
  rw [List.all_eq_true]
  intro e he
  exact emittable_not_eos w e (List.all_eq_true.mp (runMain_emittable argv w) e he)

theorem findVideoStreamAux_none (ss : List StreamInfo)
    (h : ∀ s ∈ ss, ¬ s.codec_type = CodecType.video) :
    ∀ i, findVideoStreamAux ss i = -1 := by
  induction ss with
  | nil => intro i; rfl
  | cons s rest ih =>
    intro i
    simp only [findVideoStreamAux, h s (List.mem_cons_self s rest), if_neg]
    exact ih (fun q hq => h q (List.mem_cons_of_mem s hq)) (i + 1)

theorem streamLoop_discard (vsi : Int) (itb otb : TimeBase) (fr : Frame)
    (ps : List Packet) (s : EncSt) (h : ∀ p ∈ ps, ¬ p.stream_index = vsi) :
    streamLoop vsi itb otb fr ps s = (List.replicate ps.length Event.unref, s, false) := by
  induction ps with
  | nil => rfl
  | cons p rest ih =>
    have hp : ¬ p.stream_index = vsi := h p (List.mem_cons_self p rest)
    have hr : ∀ q ∈ rest, ¬ q.stream_index = vsi := fun q hq => h q (List.mem_cons_of_mem p hq)
    simp [streamLoop, hp, ih hr, List.replicate_succ]

theorem wrap32_eq_self {n : Int} (hlo : INT_MIN ≤ n) (hhi : n ≤ INT_MAX) : wrap32 n = n := by
  simp only [wrap32, INT_MIN, INT_MAX] at *
  norm_num at *
  omega

theorem runMain_select_once (a0 a1 a2 a3 : String) (w : World) (k : Int)
    (hs : stoi a3 = .ok k) (h1 : w.open_input_ok = true) (h2 : w.find_stream_info_ok = true)
    (h3 : ¬ findVideoStream w.streams = -1) (h4 : w.find_decoder_ok = true)
    (h5 : w.alloc_ctx_ok = true) (h6 : w.params_ok = true) (h7 : w.open2_ok = true)
    (h8 : w.alloc_output_ok = true) (h9 : w.packet_alloc_ok = true)
    (h10 : w.frame_alloc_ok = true) (h11 : w.sws_ok = true) (h12 : w.frame2_alloc_ok = true)
    (h13 : (!w.nofile && !w.avio_open_ok) = false) (h14 : w.write_header_ok = true) :
    ((runMain [a0, a1, a2, a3] w).events).countP Event.isSelect = 1 := by
  have hlp : (streamLoop (findVideoStream w.streams) (inputTimeBase w) outputTimeBase
      (Frame.allocated 0) w.packets w.enc0).1.countP Event.isSelect = 0 :=
    List.countP_eq_zero.mpr (fun e he => by
      have := List.all_eq_true.mp
        (streamLoop_all (P := fun e => !Event.isSelect e) rfl rfl rfl
          (fun p => rfl) (fun p => rfl) (fun p => rfl) w.packets w.enc0) e he
      simpa using this)
  have hdr : (drainLoop (streamLoop (findVideoStream w.streams) (inputTimeBase w) outputTimeBase
      (Frame.allocated 0) w.packets w.enc0).2.1 (inputTimeBase w) outputTimeBase).1.countP
      Event.isSelect = 0 :=
    List.countP_eq_zero.mpr (fun e he => by
      have := List.all_eq_true.mp
        (drainEvents_all (P := fun e => !Event.isSelect e)
          (fun p => rfl) (fun p => rfl) (fun p => rfl)
          (streamLoop (findVideoStream w.streams) (inputTimeBase w) outputTimeBase
            (Frame.allocated 0) w.packets w.enc0).2.1.ready) e he
      simpa using this)
  cases hnf : w.nofile
  · have h13h : w.avio_open_ok = true := by
      revert h13; rw [hnf]; cases hv : w.avio_open_ok <;> simp
    rw [runMain_success_file a0 a1 a2 a3 w k hs h1 h2 h3 h4 h5 h6 h7 h8 h9 h10 h11 h12 hnf
      h13h h14]
    simp only [List.countP_append]
    rw [hlp, hdr]
    rfl
  · rw [runMain_success_nofile a0 a1 a2 a3 w k hs h1 h2 h3 h4 h5 h6 h7 h8 h9 h10 h11 h12 hnf h14]
    simp only [List.countP_append]
    rw [hlp, hdr]
    rfl

theorem runMain_encOpen_mem (a0 a1 a2 a3 : String) (w : World) (k : Int)
    (hs : stoi a3 = .ok k) (h1 : w.open_input_ok = true) (h2 : w.find_stream_info_ok = true)
    (h3 : ¬ findVideoStream w.streams = -1) (h4 : w.find_decoder_ok = true)
    (h5 : w.alloc_ctx_ok = true) (h6 : w.params_ok = true) (h7 : w.open2_ok = true) :
    Event.encOpen (wrap32 (k * 1000)) ∈ (runMain [a0, a1, a2, a3] w).events := by
  cases h8 : w.alloc_output_ok
  · rw [runMain_allocout_fail a0 a1 a2 a3 w k hs h1 h2 h3 h4 h5 h6 h7 h8]; simp
  cases h9 : w.packet_alloc_ok
  · rw [runMain_pktalloc_fail a0 a1 a2 a3 w k hs h1 h2 h3 h4 h5 h6 h7 h8 h9]; simp
  cases h10 : w.frame_alloc_ok
  · rw [runMain_framealloc_fail a0 a1 a2 a3 w k hs h1 h2 h3 h4 h5 h6 h7 h8 h9 h10]; simp
  cases h11 : w.sws_ok
  · rw [runMain_sws_fail a0 a1 a2 a3 w k hs h1 h2 h3 h4 h5 h6 h7 h8 h9 h10 h11]; simp
  cases h12 : w.frame2_alloc_ok
  · rw [runMain_frame2_fail a0 a1 a2 a3 w k hs h1 h2 h3 h4 h5 h6 h7 h8 h9 h10 h11 h12]; simp
  cases hnf : w.nofile
  · cases h13 : w.avio_open_ok
    · rw [runMain_avio_fail a0 a1 a2 a3 w k hs h1 h2 h3 h4 h5 h6 h7 h8 h9 h10 h11 h12 hnf h13]
      simp
    · have hav : (!w.nofile && !w.avio_open_ok) = false := by rw [hnf, h13]; rfl
      cases h14 : w.write_header_ok
      · rw [runMain_header_fail a0 a1 a2 a3 w k hs h1 h2 h3 h4 h5 h6 h7 h8 h9 h10 h11 h12 hav h14]
        simp
      · rw [runMain_success a0 a1 a2 a3 w k hs h1 h2 h3 h4 h5 h6 h7 h8 h9 h10 h11 h12 hav h14]
        simp
  · have hav : (!w.nofile && !w.avio_open_ok) = false := by rw [hnf]; rfl
    cases h14 : w.write_header_ok
    · rw [runMain_header_fail a0 a1 a2 a3 w k hs h1 h2 h3 h4 h5 h6 h7 h8 h9 h10 h11 h12 hav h14]
      simp
    · rw [runMain_success a0 a1 a2 a3 w k hs h1 h2 h3 h4 h5 h6 h7 h8 h9 h10 h11 h12 hav h14]
      simp

/-- C1: in every run, no event is a decoder or scaler interaction and every
frame submitted to the encoder is one the decoder did not produce
(`noDecodeEvent` holds of the whole trace); moreover on a concrete run with
one video packet, the freshly allocated, never-decoded `input_frame` is
submitted to the encoder. The decode-then-scale-then-encode contract of the
claim is therefore violated by the code. -/
theorem c1_encoder_receives_undecoded_frames :
    (∀ (argv : List String) (w : World),
      ((runMain argv w).events).all noDecodeEvent = true) ∧
    Event.encSend (Frame.allocated 0) ∈ (runMain argvOK wOK).events ∧
    Frame.fromDecoder (Frame.allocated 0) = false :=
  ⟨runMain_noDecode, by decide, rfl⟩

/-- C2 counterexample: a run in which the encode submission fails mid-loop
(the first `avcodec_send_frame` returns a negative code, the error
diagnostic is printed) still prints the success message and exits with
code 0, contradicting the claim that such a run exits nonzero. -/
theorem c2_encode_failure_exits_zero :
    (runMain argvOK wEncFail).outcome = Outcome.exitCode 0 ∧
    Event.diag "Error sending a frame for encoding" ∈ (runMain argvOK wEncFail).events ∧
    Event.stdoutMsg "Conversion completed successfully!" ∈ (runMain argvOK wEncFail).events :=
  ⟨by decide, by decide, by decide⟩

/-- C2 amended: the exit code is 0 exactly when argument parsing and every
setup stage succeed; runtime encode failures inside the loop do not affect
the exit code. Usage and setup errors exit nonzero (and an unparseable
bitrate terminates by an uncaught exception, which is not exit code 0). -/
theorem c2_exit_zero_iff_setup_ok (argv : List String) (w : World) :
    (runMain argv w).outcome = Outcome.exitCode 0 ↔ setupOk argv w = true :=
  runMain_exit_zero_iff argv w

/-- C2 witness: on the fully successful concrete run the theorem yields
exit code 0. -/
theorem c2_exit_zero_iff_setup_ok_witness :
    (runMain argvOK wOK).outcome = Outcome.exitCode 0 :=
  (c2_exit_zero_iff_setup_ok argvOK wOK).mpr (by decide)

/-- C3: no run ever signals end-of-stream to the encoder (no `encSendEOS`
event exists in any trace), and on a concrete run whose encoder holds a
packet that only end-of-stream would release, that packet survives the
flush unwritten in the final encoder state; a further
`avcodec_receive_packet` on the final state returns no packet. The flush
phase therefore never performs the end-of-stream signalling the claim
describes. -/
theorem c3_flush_never_signals_eos :
    (∀ (argv : List String) (w : World),
      ((runMain argv w).events).all (fun e => !isEOSSignal e) = true) ∧
    (runMain argvOK wPending).encFinal.pending = [stuckPkt] ∧
    ((runMain argvOK wPending).events).all (fun e => !writesTag 99 e) = true ∧
    avcodec_receive_packet (runMain argvOK wPending).encFinal =
      (none, (runMain argvOK wPending).encFinal) :=
  ⟨runMain_no_eos_bool, by decide, by decide, by decide⟩

/-- C4 counterexample: when `avformat_find_stream_info` fails, the run
exits with -1 after having opened the input, and no release event of the
teardown sequence (input close, context frees, frame frees, scaler free,
packet free, parameter destroy) occurs: the setup-failure exit path skips
the teardown entirely. -/
theorem c4_setup_failure_skips_teardown :
    (runMain argvOK wFsiFail).outcome = Outcome.exitCode (-1) ∧
    Event.openInput ∈ (runMain argvOK wFsiFail).events ∧
    Event.closeInput ∉ (runMain argvOK wFsiFail).events ∧
    Event.freeEncCtx ∉ (runMain argvOK wFsiFail).events ∧
    Event.freePacket ∉ (runMain argvOK wFsiFail).events ∧
    Event.freeFrame 0 ∉ (runMain argvOK wFsiFail).events ∧
    Event.freeFrame 1 ∉ (runMain argvOK wFsiFail).events ∧
    Event.swsFree ∉ (runMain argvOK wFsiFail).events ∧
    Event.paramsDestroy ∉ (runMain argvOK wFsiFail).events :=
  ⟨by decide, by decide, by decide, by decide, by decide, by decide, by decide, by decide,
   by decide⟩

/-- C4 amended: every run that passes setup — whether the loop completes or
breaks on a runtime encode failure — ends with the full teardown sequence
(trailer write, output close, frees, input close) as a suffix of its
trace; setup-failure exits do not run it. -/
theorem c4_completion_paths_run_teardown (a0 a1 a2 a3 : String) (w : World) (k : Int)
    (hs : stoi a3 = .ok k) (h1 : w.open_input_ok = true) (h2 : w.find_stream_info_ok = true)
    (h3 : ¬ findVideoStream w.streams = -1) (h4 : w.find_decoder_ok = true)
    (h5 : w.alloc_ctx_ok = true) (h6 : w.params_ok = true) (h7 : w.open2_ok = true)
    (h8 : w.alloc_output_ok = true) (h9 : w.packet_alloc_ok = true)
    (h10 : w.frame_alloc_ok = true) (h11 : w.sws_ok = true) (h12 : w.frame2_alloc_ok = true)
    (h13 : (!w.nofile && !w.avio_open_ok) = false) (h14 : w.write_header_ok = true) :
    (Event.writeTrailer ::
      ((if w.nofile then [Event.avioCtxFree] else [Event.avioClose]) ++
        (teardownEvents ++ [Event.stdoutMsg "Conversion completed successfully!"]))) <:+
      (runMain [a0, a1, a2, a3] w).events := by
  cases hnf : w.nofile
  · have h13h : w.avio_open_ok = true := by
      revert h13; rw [hnf]; cases hv : w.avio_open_ok <;> simp
    rw [runMain_success_file a0 a1 a2 a3 w k hs h1 h2 h3 h4 h5 h6 h7 h8 h9 h10 h11 h12 hnf
      h13h h14]
    refine List.IsSuffix.trans ?_ (List.suffix_append _ _)
    refine List.IsSuffix.trans ?_ (List.suffix_append _ _)
    exact List.suffix_append _ _
  · rw [runMain_success_nofile a0 a1 a2 a3 w k hs h1 h2 h3 h4 h5 h6 h7 h8 h9 h10 h11 h12 hnf h14]
    refine List.IsSuffix.trans ?_ (List.suffix_append _ _)
    refine List.IsSuffix.trans ?_ (List.suffix_append _ _)
    exact List.suffix_append _ _

/-- C4 witness: on the fully successful concrete run the teardown sequence
is a suffix of the trace. -/
theorem c4_completion_paths_run_teardown_witness :
    (Event.writeTrailer ::
      ((if wOK.nofile then [Event.avioCtxFree] else [Event.avioClose]) ++
        (teardownEvents ++ [Event.stdoutMsg "Conversion completed successfully!"]))) <:+
      (runMain argvOK wOK).events :=
  c4_completion_paths_run_teardown "prog" "in.mp4" "out.3gp" "500" wOK 500 (by rfl) rfl rfl
    (by decide) rfl rfl rfl rfl rfl rfl rfl rfl rfl (by rfl) rfl

/-- C5 counterexample: the third argument "3000000" parses as the integer
3000000, but the encoder is opened with bit_rate -1294967296 — the 32-bit
wrap of 3000000 × 1000 — not with 3000000000: the claim's "exactly
k × 1000" fails when the product overflows `int`. -/
theorem c5_bitrate_overflow :
    stoi "3000000" = Except.ok 3000000 ∧
    Event.encOpen (-1294967296) ∈
      (runMain ["prog", "in.mp4", "out.3gp", "3000000"] wOK).events ∧
    (-1294967296 : Int) ≠ 3000000 * 1000 :=
  ⟨by rfl, by decide, by decide⟩

/-- C5 amended: whenever the run reaches the encoder open, the encoder is
opened with bit_rate equal to `wrap32 (k * 1000)` — `k * 1000` computed in
32-bit `int` arithmetic — independent of the source stream's bitrate, and
this equals exactly `k * 1000` whenever the product fits in a 32-bit
signed int. -/
theorem c5_encoder_bitrate_config (a0 a1 a2 a3 : String) (w : World) (k : Int)
    (hs : stoi a3 = .ok k) (h1 : w.open_input_ok = true) (h2 : w.find_stream_info_ok = true)
    (h3 : ¬ findVideoStream w.streams = -1) (h4 : w.find_decoder_ok = true)
    (h5 : w.alloc_ctx_ok = true) (h6 : w.params_ok = true) (h7 : w.open2_ok = true) :
    Event.encOpen (wrap32 (k * 1000)) ∈ (runMain [a0, a1, a2, a3] w).events ∧
    (INT_MIN ≤ k * 1000 → k * 1000 ≤ INT_MAX → wrap32 (k * 1000) = k * 1000) :=
  ⟨runMain_encOpen_mem a0 a1 a2 a3 w k hs h1 h2 h3 h4 h5 h6 h7,
   fun hlo hhi => wrap32_eq_self hlo hhi⟩

/-- C5 witness: with bitrate argument 500 the encoder is opened with
exactly 500000 bits per second. -/
theorem c5_encoder_bitrate_config_witness :
    Event.encOpen (wrap32 (500 * 1000)) ∈ (runMain argvOK wOK).events ∧
    wrap32 (500 * 1000) = 500 * 1000 := by
  have h := c5_encoder_bitrate_config "prog" "in.mp4" "out.3gp" "500" wOK 500 (by rfl) rfl rfl
    (by decide) rfl rfl rfl rfl
  exact ⟨h.1, h.2 (by decide) (by decide)⟩

/-- C6: every output-stream lookup event in every run carries an empty
stream list: no stream is ever added to the output format context before
`av_find_best_stream` runs, so the lookup always scans zero streams. -/
theorem c6_output_lookup_sees_no_streams (argv : List String) (w : World)
    (ss : List StreamInfo) (h : Event.findBestStream ss ∈ (runMain argv w).events) :
    ss = [] := by
  have hall := List.all_eq_true.mp (runMain_emittable argv w) _ h
  simpa [emittable] using hall

/-- C6 witness: the concrete successful run performs the lookup, and the
lookup's stream list is empty. -/
theorem c6_output_lookup_sees_no_streams_witness :
    Event.findBestStream ([] : List StreamInfo) ∈ (runMain argvOK wOK).events ∧
    ([] : List StreamInfo) = [] :=
  ⟨by decide, c6_output_lookup_sees_no_streams argvOK wOK [] (by decide)⟩

/-- C7: a streaming loop run over packets none of which belongs to the
selected video stream emits only `unref` events — no decode, encode or mux
operation — and leaves the encoder state untouched; and every run that
reaches the loop selects the video stream index exactly once. -/
theorem c7_foreign_packets_discarded :
    (∀ (vsi : Int) (itb otb : TimeBase) (fr : Frame) (ps : List Packet) (s : EncSt),
      (∀ p ∈ ps, ¬ p.stream_index = vsi) →
      streamLoop vsi itb otb fr ps s = (List.replicate ps.length Event.unref, s, false)) ∧
    (∀ (a0 a1 a2 a3 : String) (w : World) (k : Int),
      stoi a3 = .ok k → w.open_input_ok = true → w.find_stream_info_ok = true →
      ¬ findVideoStream w.streams = -1 → w.find_decoder_ok = true → w.alloc_ctx_ok = true →
      w.params_ok = true → w.open2_ok = true → w.alloc_output_ok = true →
      w.packet_alloc_ok = true → w.frame_alloc_ok = true → w.sws_ok = true →
      w.frame2_alloc_ok = true → (!w.nofile && !w.avio_open_ok) = false →
      w.write_header_ok = true →
      ((runMain [a0, a1, a2, a3] w).events).countP Event.isSelect = 1) :=
  ⟨streamLoop_discard, runMain_select_once⟩

/-- C7 witness: an audio packet is discarded with a single unref and no
encoder-state change, and the concrete successful run selects the stream
index exactly once. -/
theorem c7_foreign_packets_discarded_witness :
    streamLoop 0 { num := 1, den := 25 } { num := 0, den := 1 } (Frame.allocated 0)
      [aPkt] encOK = ([Event.unref], encOK, false) ∧
    ((runMain argvOK wOK).events).countP Event.isSelect = 1 := by
  constructor
  · exact c7_foreign_packets_discarded.1 0 { num := 1, den := 25 } { num := 0, den := 1 }
      (Frame.allocated 0) [aPkt] encOK (by decide)
  · exact c7_foreign_packets_discarded.2 "prog" "in.mp4" "out.3gp" "500" wOK 500 (by rfl) rfl rfl
      (by decide) rfl rfl rfl rfl rfl rfl rfl rfl rfl (by rfl) rfl

/-- C8: in every run, every packet write to the muxer immediately follows
the `av_packet_rescale_ts` call whose result is exactly the packet
written, and every rescale goes from the selected input stream's time base
to the output-stream lookup's time base: no packet is ever written without
the rescale. -/
theorem c8_every_write_rescaled (argv : List String) (w : World) :
    writesRescaled ((runMain argv w).events) = true ∧
    ((runMain argv w).events).all (rescaleOK w) = true :=
  ⟨runMain_writesRescaled argv w, runMain_rescaleOK argv w⟩

/-- C9: on a source whose streams contain no video stream, the run exits
with -1, prints the video-stream diagnostic, and performs no output-side
operation: no output context allocation, no output open, no header, no
packet write, no trailer, no output close. -/
theorem c9_no_video_stream_aborts_setup (a0 a1 a2 a3 : String) (w : World) (k : Int)
    (hs : stoi a3 = .ok k) (h1 : w.open_input_ok = true) (h2 : w.find_stream_info_ok = true)
    (hnv : ∀ s ∈ w.streams, ¬ s.codec_type = CodecType.video) :
    (runMain [a0, a1, a2, a3] w).outcome = Outcome.exitCode (-1) ∧
    Event.diag "Failed to find video stream" ∈ (runMain [a0, a1, a2, a3] w).events ∧
    ((runMain [a0, a1, a2, a3] w).events).all noOutputOp = true := by
  have h3 : findVideoStream w.streams = -1 := findVideoStreamAux_none w.streams hnv 0
  rw [runMain_no_video a0 a1 a2 a3 w k hs h1 h2 h3]
  exact ⟨rfl, by simp, by rfl⟩

/-- C9 witness: the concrete audio-only source aborts setup with the
diagnostic and touches no output resource. -/
theorem c9_no_video_stream_aborts_setup_witness :
    (runMain argvOK wNoVideo).outcome = Outcome.exitCode (-1) ∧
    Event.diag "Failed to find video stream" ∈ (runMain argvOK wNoVideo).events ∧
    ((runMain argvOK wNoVideo).events).all noOutputOp = true :=
  c9_no_video_stream_aborts_setup "prog" "in.mp4" "out.3gp" "500" wNoVideo 500 (by rfl) rfl rfl
    (by decide)

/-- C10: with exactly three positional arguments whose third is not a valid
integer, `std::stoi` throws `invalid_argument`, which `main` never catches:
the run terminates by the uncaught exception with an empty trace — no usage
line, no stage diagnostic, nothing opened. -/
theorem c10_bad_bitrate_uncaught_exception :
    stoi "abc" = Except.error StoiError.invalid_argument ∧
    runMain ["prog", "in.mp4", "out.3gp", "abc"] wOK =
      { outcome := Outcome.uncaught StoiError.invalid_argument, events := [],
        encFinal := wOK.enc0 } :=
  ⟨by rfl, by decide⟩
